import Mathlib

/-!
Verification of the node-ble-host TypeScript sources against their
natural-language specification.  Each definition below is a shallow
embedding of a function of the repository; the file/line of the source
is given in the doc comment.  JavaScript runtime failures (property
access on `null`/`undefined`, calling a missing method) are modelled
with `Except JsError`.
-/

namespace NodeBleHost

/-- A JavaScript runtime exception (TypeError from dereferencing
`null`/`undefined` or calling a method that does not exist). -/
inductive JsError where
  | typeError
  deriving DecidableEq, Repr

/-- Byte coercion performed by `Buffer.from([...])` in Node: every array
entry goes through ToUint8, i.e. is reduced modulo 256 (booleans coerce
to 1 or 0 first). -/
def toUint8 (n : Nat) : Nat := n % 256

/-- Node `buffer.readUInt16LE(i)`: the little-endian 16-bit value
`buffer[i] + 256 * buffer[i+1]` (buffer entries are bytes). -/
def readUInt16LE (data : List Nat) (i : Nat) : Nat :=
  data[i]! + 256 * data[i + 1]!

/-! ### C1: serializeUuid / getFullUuid (src/lib/internal/utils.ts) -/

/-- Numeric branch of `serializeUuid` (utils.ts lines 155-169):
`Buffer.from([uuid, uuid > 8])`.  The first entry is coerced with
ToUint8; the second entry is the boolean `uuid > 8` coerced to 1/0.
(The guard `0 <= uuid <= 0xffff` is checked by the caller side of the
branch; the returned bytes are as below.) -/
def serializeUuidNum (uuid : Nat) : List Nat :=
  [toUint8 uuid, if uuid > 8 then 1 else 0]

/-- The two-byte little-endian encoding of a 16-bit value that the spec
describes for `serializeUuid`: low byte then high byte. -/
def serializeUuid16Spec (u : Nat) : List Nat :=
  [u % 256, u / 256]

/-- `getFullUuid` (utils.ts lines 320-340) on a 2-byte buffer first
computes `v = v[0] | (v[1] << 8)` and then renders the canonical 128-bit
UUID string for that integer.  Since the canonical rendering of an
integer is injective, we model the result by the integer itself. -/
def getFullUuid16 (b : List Nat) : Option Nat :=
  match b with
  | [b0, b1] => some (b0 + 256 * b1)
  | _ => none

/-- C1: for 16-bit uuid values the code does NOT produce the little-endian
encoding: the high byte is the boolean `uuid > 8` (a typo for `uuid >> 8`).
At uuid = 9 the code yields bytes [9, 1] while the little-endian encoding
is [9, 0], and the getFullUuid round trip returns 0x0109 instead of 9.
This theorem evaluates the code at that failing input. -/
theorem serializeUuid_high_byte_bug :
    serializeUuidNum 9 = [9, 1] ∧
    serializeUuid16Spec 9 = [9, 0] ∧
    serializeUuidNum 9 ≠ serializeUuid16Spec 9 ∧
    getFullUuid16 (serializeUuidNum 9) = some 0x0109 ∧
    (0x0109 : Nat) ≠ 9 := by
  refine ⟨rfl, rfl, by decide, rfl, by decide⟩

/-! ### C2: Queue and the ATT request pipeline (utils.ts lines 7-44,
2457-2469, 3194-3197) -/

/-- The `Queue` class of utils.ts: a backing array `q` and a read
position `pos`. -/
structure JsQueue (α : Type) where
  q : List α
  pos : Nat
  deriving Repr

/-- A fresh queue. -/
def JsQueue.empty {α : Type} : JsQueue α := ⟨[], 0⟩

/-- `Queue.getLength()`: `this.q.length - this.pos`. -/
def JsQueue.getLength {α : Type} (s : JsQueue α) : Nat :=
  s.q.length - s.pos

/-- `Queue.push(item)`: appends to the backing array. -/
def JsQueue.push {α : Type} (s : JsQueue α) (item : α) : JsQueue α :=
  ⟨s.q ++ [item], s.pos⟩

/-- `Queue.shift()` (utils.ts lines 24-35), translated exactly: when
`pos * 2 >= q.length` the source executes `this.q.slice(0, this.pos)`
-- whose result is discarded, `Array.prototype.slice` does not mutate --
and then sets `pos = 0` while the backing array keeps all consumed
entries. -/
def JsQueue.shift {α : Type} (s : JsQueue α) : Option α × JsQueue α :=
  if s.pos = s.q.length then (none, s)
  else
    let elem := s.q[s.pos]?
    let p := s.pos + 1
    if p * 2 ≥ s.q.length then (elem, ⟨s.q, 0⟩)
    else (elem, ⟨s.q, p⟩)

/-- Client-side request state of an `AttConnection` (utils.ts lines
2433-2434): the pending request queue, the in-flight request, and for
this model the list of PDUs handed to `sendDataFn` so far. -/
structure AttClientState (α : Type) where
  requestQueue : JsQueue α
  currentOutgoingRequest : Option α
  transmitted : List α
  deriving Repr

/-- `sendNextRequest()` (utils.ts lines 2457-2469): when no request is in
flight, shift the queue and, if an entry came out, make it current and
hand its PDU to `sendDataFn`. -/
def sendNextRequest {α : Type} (s : AttClientState α) : AttClientState α :=
  match s.currentOutgoingRequest with
  | some _ => s
  | none =>
    match s.requestQueue.shift with
    | (none, q1) => { s with requestQueue := q1 }
    | (some next, q1) =>
        { requestQueue := q1
          currentOutgoingRequest := some next
          transmitted := s.transmitted ++ [next] }

/-- `enqueueRequest(data, callback)` (utils.ts lines 3194-3197): push
onto the request queue, then `sendNextRequest()`. -/
def enqueueRequest {α : Type} (s : AttClientState α) (data : α) : AttClientState α :=
  sendNextRequest { s with requestQueue := s.requestQueue.push data }

/-- Completion of the in-flight request in the response branch of the
data handler (utils.ts lines 2548-2578): `currentOutgoingRequest = null`
followed by `sendNextRequest()` (request-queue part only). -/
def completeCurrentRequest {α : Type} (s : AttClientState α) : AttClientState α :=
  sendNextRequest { s with currentOutgoingRequest := none }

/-- C2: the Queue is not FIFO-once and a request PDU is re-transmitted.
`shift` resets `pos` to 0 without dropping the consumed prefix (the
`slice` result is discarded), so after pushing 1 and 2 two shifts both
return 1; consequently enqueueing a single request and completing it
transmits the same PDU twice.  Evaluation of the code at that input. -/
theorem att_request_transmitted_twice :
    (((JsQueue.empty.push 1).push 2).shift.2.shift.1 = some 1 ∧
      ((JsQueue.empty.push 1).push 2).shift.1 = some 1) ∧
    (completeCurrentRequest
        (enqueueRequest ⟨JsQueue.empty, none, []⟩ (37 : Nat))).transmitted
      = [37, 37] := by
  refine ⟨⟨rfl, rfl⟩, rfl⟩

/-! ### C3: Exchange MTU (utils.ts lines 2592-2608 and 3199-3217) -/

/-- ATT error codes, as in `src/lib/att-errors` (referenced by the
sources but not part of src/); values follow the standard ATT error
table given in the spec. -/
def AttErrors.INVALID_HANDLE : Nat := 0x01
/-- READ_NOT_PERMITTED ATT error code. -/
def AttErrors.READ_NOT_PERMITTED : Nat := 0x02
/-- WRITE_NOT_PERMITTED ATT error code. -/
def AttErrors.WRITE_NOT_PERMITTED : Nat := 0x03
/-- INVALID_PDU ATT error code. -/
def AttErrors.INVALID_PDU : Nat := 0x04
/-- INSUFFICIENT_AUTHENTICATION ATT error code. -/
def AttErrors.INSUFFICIENT_AUTHENTICATION : Nat := 0x05
/-- INVALID_OFFSET ATT error code. -/
def AttErrors.INVALID_OFFSET : Nat := 0x07
/-- INSUFFICIENT_AUTHORIZATION ATT error code. -/
def AttErrors.INSUFFICIENT_AUTHORIZATION : Nat := 0x08
/-- INSUFFICIENT_ENCRYPTION_KEY_SIZE ATT error code. -/
def AttErrors.INSUFFICIENT_ENCRYPTION_KEY_SIZE : Nat := 0x0C
/-- INVALID_ATTRIBUTE_VALUE_LENGTH ATT error code. -/
def AttErrors.INVALID_ATTRIBUTE_VALUE_LENGTH : Nat := 0x0D
/-- UNLIKELY_ERROR ATT error code. -/
def AttErrors.UNLIKELY_ERROR : Nat := 0x0E
/-- INSUFFICIENT_ENCRYPTION ATT error code. -/
def AttErrors.INSUFFICIENT_ENCRYPTION : Nat := 0x0F

/-- `sendErrorResponse(opcode, handle, errorCode)` (utils.ts lines
2478-2485): the five-byte ERROR_RESPONSE PDU. -/
def sendErrorResponseBytes (opcode handle errorCode : Nat) : List Nat :=
  [0x01, opcode, handle % 256, handle / 256 % 256, errorCode]

/-- Server handler of EXCHANGE_MTU_REQUEST (utils.ts lines 2592-2608).
Input: current MTU and the received PDU; output: the new current MTU and
the PDU passed to `sendResponse`/`sendErrorResponse`. -/
def handleExchangeMtuRequest (currentMtu : Nat) (data : List Nat) : Nat × List Nat :=
  if data.length ≠ 3 then
    (currentMtu, sendErrorResponseBytes 0x02 0 AttErrors.INVALID_PDU)
  else
    let clientRxMTU0 := readUInt16LE data 1
    let clientRxMTU := if clientRxMTU0 < 23 then 23 else clientRxMTU0
    let serverRxMTU := 517
    let response := [0x03, toUint8 serverRxMTU, toUint8 (serverRxMTU / 256)]
    let newMTU := min clientRxMTU serverRxMTU
    if currentMtu = 23 ∧ newMTU ≠ 23 then (newMTU, response)
    else (currentMtu, response)

/-- Response handler installed by the client method `exchangeMtu`
(utils.ts lines 3199-3217); `clientRxMTU = 517`.  Input: current MTU,
the `err` argument and the response PDU; output: the new current MTU and
the boolean the handler returns (false = invalid PDU, dropped). -/
def exchangeMtuClientHandler (currentMtu : Nat) (err : Nat) (data : List Nat) :
    Nat × Bool :=
  if err ≠ 0 then (currentMtu, true)
  else if data.length ≠ 3 then (currentMtu, false)
  else
    let serverRxMTU := max 23 (readUInt16LE data 1)
    let newMTU := min 517 serverRxMTU
    if currentMtu = 23 ∧ newMTU ≠ 23 then (newMTU, true)
    else (currentMtu, true)

/-- Closed form of the server-side MTU handler on a well-formed request. -/
theorem handleExchangeMtu_eq (m lo hi : Nat) :
    handleExchangeMtuRequest m [0x02, lo, hi]
      = (if m = 23 ∧ min (max 23 (lo + 256 * hi)) 517 ≠ 23
          then min (max 23 (lo + 256 * hi)) 517 else m,
         [0x03, 5, 2]) := by
  have hread : readUInt16LE [0x02, lo, hi] 1 = lo + 256 * hi := by
    simp [readUInt16LE]
  have hclamp : (if lo + 256 * hi < 23 then 23 else lo + 256 * hi)
      = max 23 (lo + 256 * hi) := by
    rcases Nat.lt_or_ge (lo + 256 * hi) 23 with h | h
    · rw [if_pos h, max_eq_left (Nat.le_of_lt h)]
    · rw [if_neg (Nat.not_lt.mpr h), max_eq_right h]
  simp only [handleExchangeMtuRequest, hread, hclamp, toUint8]
  norm_num
  by_cases hc : min (max 23 (lo + 256 * hi)) 517 = 23
  · simp [hc]
  · by_cases hm : m = 23 <;> simp [hc, hm]

/-- Closed form of the client-side exchangeMtu response handler on a
successful, well-formed response. -/
theorem exchangeMtuClient_eq (m lo hi : Nat) :
    exchangeMtuClientHandler m 0 [0x03, lo, hi]
      = (if m = 23 ∧ min 517 (max 23 (lo + 256 * hi)) ≠ 23
          then min 517 (max 23 (lo + 256 * hi)) else m,
         true) := by
  have hread : readUInt16LE [0x03, lo, hi] 1 = lo + 256 * hi := by
    simp [readUInt16LE]
  simp only [exchangeMtuClientHandler, hread]
  norm_num
  by_cases hc : min 517 (max 23 (lo + 256 * hi)) = 23
  · simp [hc]
  · by_cases hm : m = 23 <;> simp [hc, hm]

/-- C3: for both the server-side EXCHANGE_MTU_REQUEST handler and the
client-side exchangeMtu response handler, starting from the initial MTU
23 the resulting MTU is min(clientRxMTU, serverRxMTU) with the received
MTU clamped below by 23 (server advertises 517, the client requests
517); the MTU never decreases; and once it differs from 23 it never
changes again. -/
theorem exchangeMtu_min_clamp_once (m lo hi : Nat) :
    ((handleExchangeMtuRequest 23 [0x02, lo, hi]).1
        = min (max 23 (lo + 256 * hi)) 517) ∧
    (m ≤ (handleExchangeMtuRequest m [0x02, lo, hi]).1) ∧
    (m ≠ 23 → (handleExchangeMtuRequest m [0x02, lo, hi]).1 = m) ∧
    ((handleExchangeMtuRequest m [0x02, lo, hi]).2 = [0x03, 5, 2]) ∧
    ((exchangeMtuClientHandler 23 0 [0x03, lo, hi]).1
        = min 517 (max 23 (lo + 256 * hi))) ∧
    (m ≤ (exchangeMtuClientHandler m 0 [0x03, lo, hi]).1) ∧
    (m ≠ 23 → (exchangeMtuClientHandler m 0 [0x03, lo, hi]).1 = m) := by
  refine ⟨?_, ?_, ?_, ?_, ?_, ?_, ?_⟩
  · rw [handleExchangeMtu_eq]
    by_cases hc : min (max 23 (lo + 256 * hi)) 517 = 23 <;> simp [hc]
  · rw [handleExchangeMtu_eq]
    by_cases hm : m = 23
    · subst hm
      by_cases hc : min (max 23 (lo + 256 * hi)) 517 = 23 <;> simp [hc]
    · simp [hm]
  · intro hm
    rw [handleExchangeMtu_eq]
    simp [hm]
  · rw [handleExchangeMtu_eq]
  · rw [exchangeMtuClient_eq]
    by_cases hc : min 517 (max 23 (lo + 256 * hi)) = 23 <;> simp [hc]
  · rw [exchangeMtuClient_eq]
    by_cases hm : m = 23
    · subst hm
      by_cases hc : min 517 (max 23 (lo + 256 * hi)) = 23 <;> simp [hc]
    · simp [hm]
  · intro hm
    rw [exchangeMtuClient_eq]
    simp [hm]

/-- Witness for C3: instantiation at clientRx = 100 (bytes 100, 0) from
the initial MTU 23; the resulting MTU is 100. -/
theorem exchangeMtu_min_clamp_once_witness :
    (handleExchangeMtuRequest 23 [0x02, 100, 0]).1 = 100 ∧ (23 : Nat) ≠ 24 ∧
    (handleExchangeMtuRequest 24 [0x02, 100, 0]).1 = 24 := by
  refine ⟨?_, by decide, (exchangeMtu_min_clamp_once 24 100 0).2.2.1 (by decide)⟩
  have h := (exchangeMtu_min_clamp_once 23 100 0).1
  simpa using h

/-! ### C4: notification holding queue around an MTU exchange
(utils.ts lines 3447-3457 and 2568-2576) -/

/-- `AttConnection.notify` (utils.ts lines 3447-3457): build the
HANDLE_VALUE_NOTIFICATION PDU; while an Exchange MTU request sent by
this device is outstanding (`currentOutgoingRequest.responseOpcode ===
EXCHANGE_MTU_RESPONSE`) it is pushed onto `notificationQueue`, otherwise
it is handed to `sendDataFn` sliced to the current MTU.  Returns the new
queue and the list of PDUs sent. -/
def attNotify (currentMtu : Nat) (mtuExchangeOutstanding : Bool)
    (nq : JsQueue (List Nat)) (attributeHandle : Nat) (attributeValue : List Nat) :
    JsQueue (List Nat) × List (List Nat) :=
  let buffer := 0x1b :: attributeHandle % 256 :: attributeHandle / 256 % 256
    :: attributeValue
  if mtuExchangeOutstanding then (nq.push buffer, [])
  else (nq, [buffer.take currentMtu])

/-- The `while (notificationQueue.getLength() !== 0)` flush loop run on
MTU-exchange completion (utils.ts lines 2570-2575), with explicit fuel
because with the source Queue the loop need not terminate.  Returns the
queue, the PDUs handed to `sendDataFn`, and whether the loop exited
(true) or ran out of fuel with the loop condition still true (false).
The `(none, _)` arm is unreachable: a nonzero `getLength` makes `shift`
return an element. -/
def flushNotificationQueue (currentMtu : Nat) :
    Nat → JsQueue (List Nat) → List (List Nat) →
      JsQueue (List Nat) × List (List Nat) × Bool
  | 0, s, sent => (s, sent, s.getLength == 0)
  | fuel + 1, s, sent =>
    if s.getLength == 0 then (s, sent, true)
    else
      match s.shift with
      | (some item, s1) =>
          flushNotificationQueue currentMtu fuel s1 (sent ++ [item.take currentMtu])
      | (none, s1) => (s1, sent, true)

/-- C4: evaluation of the code at the failing input.  A notification on
handle 0x10 with payload [1] submitted while an MTU exchange is
outstanding is held (not transmitted); but when the exchange completes,
the flush loop re-delivers that same held notification on every
iteration and never exits (three iterations shown: three copies sent,
loop condition still true), because `Queue.shift` leaves the entry in
the backing array while resetting `pos`.  The claim's
exactly-once-in-order flush (and the subsequent indication release)
never happens. -/
theorem held_notification_flush_diverges :
    attNotify 23 true JsQueue.empty 0x10 [1] = (⟨[[0x1b, 0x10, 0, 1]], 0⟩, []) ∧
    flushNotificationQueue 23 3 ⟨[[0x1b, 0x10, 0, 1]], 0⟩ []
      = (⟨[[0x1b, 0x10, 0, 1]], 0⟩,
         [[0x1b, 0x10, 0, 1], [0x1b, 0x10, 0, 1], [0x1b, 0x10, 0, 1]],
         false) := by
  refine ⟨rfl, rfl⟩

/-! ### C5: READ_MULTIPLE_REQUEST (utils.ts lines 2854-2940) -/

/-- Server-side view of one attribute as the READ_MULTIPLE handler uses
it: the result of `checkReadPermission` and the `(err, value)` pair its
`read` dispatcher passes to the callback. -/
structure ServerAttr where
  permErr : Nat
  readErr : Nat
  readValue : List Nat
  deriving Repr

/-- Outcome recorded for one handle in the handler's `list` (utils.ts
lines 2870-2896): either `{err: e, handle: h}` or `{err: 0, value}`. -/
inductive RMEntry where
  | ok (value : List Nat)
  | fail (err handle : Nat)
  deriving DecidableEq, Repr

/-- The `firstX` accumulators of the response-classification loop
(utils.ts line 2899). -/
structure RMFirsts where
  firstAuthz : Nat
  firstAuth : Nat
  firstEncKeySize : Nat
  firstEnc : Nat
  firstReadNotPerm : Nat
  firstOther : Nat
  otherErrorType : Nat
  deriving Repr

/-- Initial accumulators: every `firstX` starts at 0. -/
def RMFirsts.init : RMFirsts := ⟨0, 0, 0, 0, 0, 0, 0⟩

/-- One step of the `list.forEach` classification (utils.ts lines
2900-2921), translated exactly: there is no branch assigning
`firstReadNotPerm`, and `firstOther` records the first error of any
kind.  For a success entry the source executes `buffers.push(v.value)`
where `buffers` is a Buffer, which has no `push` method: TypeError. -/
def rmClassifyStep (f : RMFirsts) : RMEntry → Except JsError RMFirsts
  | .ok _ => .error .typeError
  | .fail err handle =>
      .ok { f with
        firstAuthz :=
          if f.firstAuthz = 0 ∧ err = AttErrors.INSUFFICIENT_AUTHORIZATION
          then handle else f.firstAuthz
        firstAuth :=
          if f.firstAuth = 0 ∧ err = AttErrors.INSUFFICIENT_AUTHENTICATION
          then handle else f.firstAuth
        firstEncKeySize :=
          if f.firstEncKeySize = 0 ∧ err = AttErrors.INSUFFICIENT_ENCRYPTION_KEY_SIZE
          then handle else f.firstEncKeySize
        firstEnc :=
          if f.firstEnc = 0 ∧ err = AttErrors.INSUFFICIENT_ENCRYPTION
          then handle else f.firstEnc
        firstOther := if f.firstOther = 0 then handle else f.firstOther
        otherErrorType := if f.firstOther = 0 then err else f.otherErrorType }

/-- The full classification fold over the collected list. -/
def rmClassify (f : RMFirsts) : List RMEntry → Except JsError RMFirsts
  | [] => .ok f
  | e :: rest =>
    match rmClassifyStep f e with
    | .error err => .error err
    | .ok f1 => rmClassify f1 rest

/-- Response selection after the classification (utils.ts lines
2922-2936).  The final success arm executes `Buffer.concat(buffers)`
where `buffers` is a Buffer, not an array: TypeError (it is only
reachable when the collected list is empty). -/
def rmRespond (f : RMFirsts) : Except JsError (List Nat) :=
  if f.firstAuthz ≠ 0 then
    .ok (sendErrorResponseBytes 0x0E f.firstAuthz AttErrors.INSUFFICIENT_AUTHORIZATION)
  else if f.firstAuth ≠ 0 then
    .ok (sendErrorResponseBytes 0x0E f.firstAuth AttErrors.INSUFFICIENT_AUTHENTICATION)
  else if f.firstEncKeySize ≠ 0 then
    .ok (sendErrorResponseBytes 0x0E f.firstEncKeySize
      AttErrors.INSUFFICIENT_ENCRYPTION_KEY_SIZE)
  else if f.firstEnc ≠ 0 then
    .ok (sendErrorResponseBytes 0x0E f.firstEnc AttErrors.INSUFFICIENT_ENCRYPTION)
  else if f.firstReadNotPerm ≠ 0 then
    .ok (sendErrorResponseBytes 0x0E f.firstReadNotPerm AttErrors.READ_NOT_PERMITTED)
  else if f.firstOther ≠ 0 then
    .ok (sendErrorResponseBytes 0x0E f.firstOther f.otherErrorType)
  else .error .typeError

/-- Parse the handle list of a READ_MULTIPLE_REQUEST payload:
`data.readUInt16LE(i)` for i = 1, 3, 5, ... -/
def parseHandles : List Nat → List Nat
  | lo :: hi :: rest => (lo + 256 * hi) :: parseHandles rest
  | _ => []

/-- Per-handle collection step of `nextFn` (utils.ts lines 2871-2897):
a permission failure or read error is recorded with its handle, a
successful read records the value sliced to MTU - 1. -/
def rmCollect (attrs : Nat → Option ServerAttr) (requestMtu : Nat)
    (handles : List Nat) : List RMEntry :=
  handles.map fun h =>
    match attrs h with
    | none => .fail AttErrors.INVALID_HANDLE h
    | some a =>
      if a.permErr ≠ 0 then .fail a.permErr h
      else if a.readErr ≠ 0 then .fail a.readErr h
      else .ok (a.readValue.take (requestMtu - 1))

/-- The READ_MULTIPLE_REQUEST handler (utils.ts lines 2854-2940):
PDU-shape check, existence check of every listed handle (first missing
handle yields INVALID_HANDLE), in-order collection, then classification
and response selection. -/
def handleReadMultiple (attrs : Nat → Option ServerAttr) (currentMtu : Nat)
    (data : List Nat) : Except JsError (List Nat) :=
  if data.length < 5 ∨ (data.length - 1) % 2 ≠ 0 then
    .ok (sendErrorResponseBytes 0x0E 0 AttErrors.INVALID_PDU)
  else
    let handles := parseHandles (data.drop 1)
    match handles.find? (fun h => (attrs h).isNone) with
    | some h => .ok (sendErrorResponseBytes 0x0E h AttErrors.INVALID_HANDLE)
    | none =>
      match rmClassify RMFirsts.init (rmCollect attrs currentMtu handles) with
      | .error e => .error e
      | .ok f => rmRespond f

/-- Attribute database for the C5 failing input: reading handle 1 fails
with UNLIKELY_ERROR, handle 2 is read-not-permitted. -/
def rmBugAttrs : Nat → Option ServerAttr := fun h =>
  if h = 1 then some ⟨0, AttErrors.UNLIKELY_ERROR, []⟩
  else if h = 2 then some ⟨AttErrors.READ_NOT_PERMITTED, 0, []⟩
  else none

/-- C5: evaluation of the code at the failing input.  For the request
listing handles [1, 2], where handle 1 fails with the generic
UNLIKELY_ERROR (0x0E) and handle 2 with READ_NOT_PERMITTED (0x02), the
handler answers ERROR_RESPONSE naming handle 1 with UNLIKELY_ERROR: the
accumulator `firstReadNotPerm` is declared but never assigned, so
read-not-permitted is NOT prioritised over other errors as the claim
requires (expected: handle 2, READ_NOT_PERMITTED). -/
theorem readMultiple_priority_bug :
    handleReadMultiple rmBugAttrs 23 [0x0E, 1, 0, 2, 0]
        = .ok (sendErrorResponseBytes 0x0E 1 AttErrors.UNLIKELY_ERROR) ∧
    sendErrorResponseBytes 0x0E 1 AttErrors.UNLIKELY_ERROR
        ≠ sendErrorResponseBytes 0x0E 2 AttErrors.READ_NOT_PERMITTED := by
  refine ⟨rfl, by decide⟩

/-! ### C6: WRITE_REQUEST / WRITE_COMMAND (utils.ts lines 2986-3032) -/

/-- Server-side view of one attribute as the write handler uses it:
`checkWritePermission` result, the `err` its `authorizeWrite` passes to
the callback, `maxLength`, and the `err` its `write` dispatcher passes
to the callback. -/
structure WriteAttr where
  maxLength : Nat
  permErr : Nat
  authErr : Nat
  writeErr : Nat
  deriving Repr

/-- The WRITE_REQUEST / WRITE_COMMAND handler (utils.ts lines
2986-3032), returning the list of PDUs it emits.  Every failure path is
guarded by `isCommand || ...` or `if (!isCommand)` EXCEPT the
`value.length > item.maxLength` branch, which calls
`sendErrorResponse` unconditionally -- translated exactly as written. -/
def handleWrite (attrs : Nat → Option WriteAttr) (isCommand : Bool)
    (disconnected : Bool) (data : List Nat) : List (List Nat) :=
  let opcode := if isCommand then 0x52 else 0x12
  if data.length < 3 then
    if isCommand then [] else [sendErrorResponseBytes opcode 0 AttErrors.INVALID_PDU]
  else
    let handle := readUInt16LE data 1
    let value := data.drop 3
    match attrs handle with
    | none =>
      if isCommand then []
      else [sendErrorResponseBytes opcode handle AttErrors.INVALID_HANDLE]
    | some item =>
      if item.permErr ≠ 0 then
        if isCommand then []
        else [sendErrorResponseBytes opcode handle item.permErr]
      else if disconnected then []
      else if item.authErr ≠ 0 then
        if isCommand then []
        else [sendErrorResponseBytes opcode handle item.authErr]
      else if value.length > item.maxLength then
        [sendErrorResponseBytes opcode handle AttErrors.INVALID_ATTRIBUTE_VALUE_LENGTH]
      else if item.writeErr ≠ 0 then
        if isCommand then []
        else [sendErrorResponseBytes opcode handle item.writeErr]
      else
        if isCommand then [] else [[0x13]]

/-- Attribute database for the C6 failing input: handle 1 is writable
(all checks pass) but has maxLength 0. -/
def writeBugAttrs : Nat → Option WriteAttr := fun h =>
  if h = 1 then some ⟨0, 0, 0, 0⟩ else none

/-- C6: evaluation of the code at the failing input.  A WRITE_COMMAND
(opcode 0x52) carrying a 1-byte value for an attribute with maxLength 0
makes the server emit an ERROR_RESPONSE with
INVALID_ATTRIBUTE_VALUE_LENGTH -- the overflow branch lacks the
`isCommand` guard present on every other failure path -- although the
claim (and the spec) say commands never produce any response.  The
WRITE_REQUEST half of the claim does hold: the same overflow on a
request returns INVALID_ATTRIBUTE_VALUE_LENGTH. -/
theorem writeCommand_emits_error_on_overflow :
    handleWrite writeBugAttrs true false [0x52, 1, 0, 9]
        = [sendErrorResponseBytes 0x52 1 AttErrors.INVALID_ATTRIBUTE_VALUE_LENGTH] ∧
    handleWrite writeBugAttrs true false [0x52, 1, 0, 9] ≠ [] ∧
    handleWrite writeBugAttrs false false [0x12, 1, 0, 9]
        = [sendErrorResponseBytes 0x12 1 AttErrors.INVALID_ATTRIBUTE_VALUE_LENGTH] := by
  refine ⟨rfl, by decide, rfl⟩

/-! ### C7: DuplicateCache (utils.ts lines 72-153) -/

/-- Observable state of a `DuplicateCache`.  In the source, `this.first`
is assigned a node nowhere: the constructor sets it to null, `remove`
only rewrites it when `this.first === node` (impossible while it is
null), and the eviction branch of `add` reads `this.first.key` before
any assignment.  So `first` is always null and is not part of the
state.  `nodeMap` is kept in insertion order; values are modelled as JS
primitives (numbers). -/
structure DupCache where
  capacity : Nat
  nodeMap : List (String × Nat)
  deriving Repr

/-- `DuplicateCache.get(key)` (utils.ts lines 97-99). -/
def DupCache.get (c : DupCache) (key : String) : Option Nat :=
  (c.nodeMap.find? (fun p => p.1 == key)).map (fun p => p.2)

/-- `DuplicateCache.remove(key)` (utils.ts lines 101-118), translated
exactly: `const node = this.get(key)` fetches the stored *value*, not
its CacheNode.  For a primitive value, `node.next` is `undefined`, the
comparison `node.next !== null` is therefore true, and the store
`node.next.prev = node.prev` throws a TypeError (after the map entry
was already deleted).  When the key is absent, remove returns false. -/
def DupCache.remove (c : DupCache) (key : String) : Except JsError (Bool × DupCache) :=
  if c.nodeMap.any (fun p => p.1 == key) then .error .typeError
  else .ok (false, c)

/-- `DuplicateCache.add(key, value)` (utils.ts lines 120-152),
translated exactly: remove the key first (which throws for an existing
key); when `capacity === 0`, read `firstKey = this.first.key` -- but
`first` is always null, so this throws a TypeError instead of evicting
the oldest entry and emitting the remove event; otherwise append the
node and decrement capacity, returning `!exists`. -/
def DupCache.add (c : DupCache) (key : String) (value : Nat) :
    Except JsError (Bool × DupCache) :=
  match c.remove key with
  | .error e => .error e
  | .ok (ex, c1) =>
    if c1.capacity = 0 then .error .typeError
    else .ok (!ex, ⟨c1.capacity - 1, c1.nodeMap ++ [(key, value)]⟩)

/-- C7: evaluation of the code at the failing input, for a cache of
capacity 1 (the argument generalises to any N).  The first add of a new
key succeeds and the entry is retrievable via get; but the second add
of a new key -- which the claim says evicts the oldest entry and emits
remove with the oldest key -- throws a TypeError (`this.first` is
null because no code path ever links it to a node); and re-adding an
existing key -- which the claim says removes the prior entry and
returns false -- also throws (remove fetches the stored value instead
of its CacheNode and dereferences `undefined`). -/
theorem duplicateCache_eviction_crash :
    DupCache.add ⟨1, []⟩ "a" 10 = .ok (true, ⟨0, [("a", 10)]⟩) ∧
    DupCache.get ⟨0, [("a", 10)]⟩ "a" = some 10 ∧
    DupCache.add ⟨0, [("a", 10)]⟩ "b" 20 = .error .typeError ∧
    DupCache.add ⟨0, [("a", 10)]⟩ "a" 30 = .error .typeError ∧
    DupCache.add ⟨5, [("a", 10)]⟩ "a" 30 = .error .typeError := by
  refine ⟨rfl, rfl, rfl, rfl, rfl⟩

/-! ### C8: GattConnection.invalidateServices (utils.ts lines 4433-4487,
RangeMap lines 3485-3534) -/

/-- An entry of the `RangeMap` of utils.ts: `{start, end, value}` (the
JS field `end` is called `stop` here since `end` is reserved).  The
service payload is opaque for this claim.  Note the entry has NO
`includedServices` field: in JS, reading one yields `undefined`. -/
structure RangeItem (α : Type) where
  start : Nat
  stop : Nat
  value : Option α
  deriving DecidableEq, Repr

/-- `RangeMap.remove(index)` (utils.ts lines 3500-3508): splice out the
first entry whose range contains the index. -/
def rangeMapRemove {α : Type} (m : List (RangeItem α)) (index : Nat) :
    List (RangeItem α) :=
  match m with
  | [] => []
  | v :: rest =>
    if v.start ≤ index ∧ index ≤ v.stop then rest
    else v :: rangeMapRemove rest index

/-- The `toRemove` collection of invalidateServices (utils.ts lines
4450-4455): the start handles of the entries overlapping the
invalidated range. -/
def collectOverlaps {α : Type} (m : List (RangeItem α)) (startHandle endHandle : Nat) :
    List Nat :=
  (m.filter (fun v => decide (v.start ≤ endHandle) && decide (startHandle ≤ v.stop))).map
    (fun v => v.start)

/-- The in-memory GATT client cache (utils.ts lines 3556-3564). -/
structure GattCacheModel (α : Type) where
  hasAllPrimaryServices : Bool
  allPrimaryServices : List (RangeItem α)
  secondaryServices : List (RangeItem α)
  primaryServicesByUUID : List (String × List (RangeItem α))
  deriving Repr

/-- `clearGattCache()` (utils.ts lines 3557-3564). -/
def clearGattCache (α : Type) : GattCacheModel α :=
  ⟨false, [], [], []⟩

/-- `GattConnection.invalidateServices(startHandle, endHandle)` body
(utils.ts lines 4439-4486), translated exactly.  Returns the new cache
and whether `storeGattCache` was invoked.  Divergences from the spec
are kept as the source has them:
* the per-UUID loop executes `maps.push(gattCache.primaryServicesByUUID)`
  -- the plain object, not the range map of the key -- so when at least
  one per-UUID key exists, `maps.forEach(map => map.forEach(...))`
  reaches an object with no `forEach` method: TypeError (after the two
  proper range maps have been processed);
* the rediscovery pass reads `v.includedServices` on range-map entries;
  that is `undefined`, `undefined !== null` holds, and
  `v.includedServices.length` throws a TypeError on the first surviving
  entry of either map;
* `hasAllPrimaryServices = false` assigns an undeclared identifier, so
  `gattCache.hasAllPrimaryServices` is left unchanged. -/
def invalidateServicesModel {α : Type} (cache : GattCacheModel α)
    (startHandle endHandle : Nat) : Except JsError (GattCacheModel α × Bool) :=
  if startHandle = 1 ∧ endHandle = 0xffff then
    .ok (clearGattCache α, true)
  else
    let remA := collectOverlaps cache.allPrimaryServices startHandle endHandle
    let remS := collectOverlaps cache.secondaryServices startHandle endHandle
    let aps := remA.foldl rangeMapRemove cache.allPrimaryServices
    let ss := remS.foldl rangeMapRemove cache.secondaryServices
    if ¬ cache.primaryServicesByUUID.isEmpty then .error .typeError
    else if ¬ aps.isEmpty ∨ ¬ ss.isEmpty then .error .typeError
    else
      let modified := ¬ remA.isEmpty ∨ ¬ remS.isEmpty
      .ok ({ cache with allPrimaryServices := aps, secondaryServices := ss },
        decide modified)

/-- C8: evaluation of the code at failing inputs (services opaque,
modelled as Nat).
1. A cache whose only content is a per-UUID range map entry for
   heart-rate services: invalidateServices(1, 5) throws a TypeError
   (the object itself was pushed into `maps`), so nothing is removed
   from the per-UUID map and nothing is persisted.
2. A cache with primary services [1..5] and [10..20]: the overlapping
   entry is removed, but the rediscovery pass then dereferences
   `undefined` on the surviving entry [10..20]: TypeError, and nothing
   is persisted.
3. A cache with hasAllPrimaryServices = true whose single primary
   service [1..5] is fully invalidated: the call succeeds and persists,
   yet `hasAllPrimaryServices` remains true because the clearing
   assignment targets an undeclared global instead of the cache. -/
theorem invalidateServices_crash_and_flag :
    invalidateServicesModel
        (⟨false, [], [], [("0000180D-0000-1000-8000-00805F9B34FB", [⟨1, 5, some 0⟩])]⟩
          : GattCacheModel Nat) 1 5
      = .error .typeError ∧
    invalidateServicesModel
        (⟨false, [⟨1, 5, some 0⟩, ⟨10, 20, some 1⟩], [], []⟩ : GattCacheModel Nat) 1 5
      = .error .typeError ∧
    invalidateServicesModel
        (⟨true, [⟨1, 5, some 0⟩], [], []⟩ : GattCacheModel Nat) 1 5
      = .ok (⟨true, [], [], []⟩, true) ∧
    (⟨true, [], [], []⟩ : GattCacheModel Nat).hasAllPrimaryServices = true := by
  refine ⟨rfl, rfl, rfl, rfl⟩

/-! ### C9: resolveAddress (src/unnamed/part_000 lines 163-188,
storeKeys lines 109-116) -/

/-- The 16-byte block encrypted by `resolveAddress`: `Buffer.alloc(16)`
with the three prand bytes of the random address copied at offset 13
(`peerRandomAddress.substr(2, 6)` = address bytes 1..3, MSB first).
Addresses are modelled as their byte lists `[tt, a1, a2, a3, b1, b2, b3]`
for the string `tt:aa:aa:aa:bb:bb:bb`. -/
def ahBlock (addr : List Nat) : List Nat :=
  List.replicate 13 0 ++ (addr.drop 1).take 3

/-- The 24-bit hash of the random address:
`peerRandomAddress.substr(8)` = address bytes 4..6. -/
def addrHash (addr : List Nat) : List Nat :=
  addr.drop 4

/-- `resolveAddress(ownAddress, peerRandomAddress)` (part_000 lines
163-188).  The IRK table holds, per candidate peer address, the
`aes.update` function of the AES-128-ECB cipher keyed with the
byte-reversed IRK (prepared by `storeKeys`/`init`); the loop returns
the first candidate whose ciphertext's last three bytes
(`.subarray(13)`) equal the hash, else null. -/
def resolveAddressModel (irks : List (String × (List Nat → List Nat)))
    (peerRandomAddress : List Nat) : Option String :=
  (irks.find? (fun p =>
    (p.2 (ahBlock peerRandomAddress)).drop 13 == addrHash peerRandomAddress)).map
    (fun p => p.1)

/-- C9: `resolveAddress` returns a stored identity address iff some
stored IRK satisfies the AH check -- encrypting the zero block carrying
the prand at bytes 13..15 yields a ciphertext whose last three bytes
equal the address's hash -- and any address it returns is a stored one
whose IRK passes that check; when no stored IRK matches it returns
null.  (The constant-time nature of the byte comparison is outside this
functional model.) -/
theorem resolveAddress_ah_iff (irks : List (String × (List Nat → List Nat)))
    (addr : List Nat) :
    ((resolveAddressModel irks addr).isSome ↔
      ∃ p ∈ irks, (p.2 (ahBlock addr)).drop 13 = addrHash addr) ∧
    (∀ a, resolveAddressModel irks addr = some a →
      ∃ f, (a, f) ∈ irks ∧ (f (ahBlock addr)).drop 13 = addrHash addr) ∧
    (resolveAddressModel irks addr = none ↔
      ∀ p ∈ irks, (p.2 (ahBlock addr)).drop 13 ≠ addrHash addr) := by
  induction irks with
  | nil => simp [resolveAddressModel]
  | cons q t ih =>
    obtain ⟨ih1, ih2, ih3⟩ := ih
    by_cases h : (q.2 (ahBlock addr)).drop 13 = addrHash addr
    · have hb : (fun p : String × (List Nat → List Nat) =>
          (p.2 (ahBlock addr)).drop 13 == addrHash addr) q = true :=
        beq_iff_eq.mpr h
      have hfind : List.find? (fun p : String × (List Nat → List Nat) =>
            (p.2 (ahBlock addr)).drop 13 == addrHash addr) (q :: t) = some q :=
        List.find?_cons_of_pos t hb
      refine ⟨?_, ?_, ?_⟩
      · rw [resolveAddressModel, hfind]
        simp only [Option.map_some', Option.isSome_some, true_iff]
        exact ⟨q, List.mem_cons_self q t, h⟩
      · intro a ha
        rw [resolveAddressModel, hfind] at ha
        simp only [Option.map_some', Option.some.injEq] at ha
        refine ⟨q.2, ?_, h⟩
        rw [← ha, Prod.mk.eta]
        exact List.mem_cons_self q t
      · constructor
        · intro hnone
          rw [resolveAddressModel, hfind] at hnone
          simp at hnone
        · intro hall
          exact absurd h (hall q (List.mem_cons_self q t))
    · have hb : ¬ ((fun p : String × (List Nat → List Nat) =>
          (p.2 (ahBlock addr)).drop 13 == addrHash addr) q = true) := by
        simpa using h
      have hfind : List.find? (fun p : String × (List Nat → List Nat) =>
            (p.2 (ahBlock addr)).drop 13 == addrHash addr) (q :: t)
          = List.find? (fun p : String × (List Nat → List Nat) =>
              (p.2 (ahBlock addr)).drop 13 == addrHash addr) t :=
        List.find?_cons_of_neg t hb
      have hstep : resolveAddressModel (q :: t) addr = resolveAddressModel t addr := by
        rw [resolveAddressModel, resolveAddressModel, hfind]
      refine ⟨?_, ?_, ?_⟩
      · rw [hstep, ih1]
        constructor
        · rintro ⟨p, hp, hP⟩
          exact ⟨p, List.mem_cons_of_mem q hp, hP⟩
        · rintro ⟨p, hp, hP⟩
          rcases List.mem_cons.mp hp with rfl | hp2
          · exact absurd hP h
          · exact ⟨p, hp2, hP⟩
      · intro a ha
        rw [hstep] at ha
        obtain ⟨f, hf, hP⟩ := ih2 a ha
        exact ⟨f, List.mem_cons_of_mem q hf, hP⟩
      · rw [hstep, ih3]
        constructor
        · intro hall p hp
          rcases List.mem_cons.mp hp with rfl | hp2
          · exact h
          · exact hall p hp2
        · intro hall p hp
          exact hall p (List.mem_cons_of_mem q hp)

/-- Witness for C9 at a concrete store: one IRK whose cipher is the
constant block of 7s, and a random address whose hash is [7, 7, 7]; the
resolution succeeds, and with hash [7, 7, 8] it returns null. -/
theorem resolveAddress_ah_iff_witness :
    (resolveAddressModel [("00-AA-AA-AA-BB-BB-BB", fun _ => List.replicate 16 7)]
      [1, 2, 3, 4, 7, 7, 7]).isSome ∧
    resolveAddressModel [("00-AA-AA-AA-BB-BB-BB", fun _ => List.replicate 16 7)]
      [1, 2, 3, 4, 7, 7, 8] = none := by
  constructor
  · exact (resolveAddress_ah_iff
        [("00-AA-AA-AA-BB-BB-BB", fun _ => List.replicate 16 7)]
        [1, 2, 3, 4, 7, 7, 7]).1.mpr
      ⟨("00-AA-AA-AA-BB-BB-BB", fun _ => List.replicate 16 7),
        List.mem_singleton.mpr rfl, rfl⟩
  · exact (resolveAddress_ah_iff
        [("00-AA-AA-AA-BB-BB-BB", fun _ => List.replicate 16 7)]
        [1, 2, 3, 4, 7, 7, 8]).2.2.mpr
      (by
        intro p hp
        rw [List.mem_singleton] at hp
        subst hp
        decide)

/-! ### C10: HCI command completion ordering (src/unnamed/part_001,
onData CMD_COMPLETE/CMD_STATUS lines 1473-1497, reallySendCommand lines
441-458, sendCommand lines 460-470) -/

/-- A queued or pending HCI command: its opcode, an identifier for its
callback, and the ignoreResponse mark set by handleDisconnectionComplete. -/
structure HciCommandModel where
  opcode : Nat
  cbId : Nat
  ignoreResponse : Bool
  deriving DecidableEq, Repr

/-- Command-scheduling state of the HciAdapter. -/
structure HciAdapterState where
  isStopped : Bool
  pendingCommand : Option HciCommandModel
  commandQueue : List HciCommandModel
  deriving DecidableEq, Repr

/-- Externally visible actions of the adapter, in order: a command
packet written to the transport, or a command callback invocation. -/
inductive HciAction where
  | transportWrite (opcode : Nat)
  | invokeCallback (cbId status : Nat)
  deriving DecidableEq, Repr

/-- `reallySendCommand` (part_001 lines 441-458): unless stopped, set
the pending slot (ignoreResponse = false) and write the command packet
to the transport. -/
def reallySendCommand (st : HciAdapterState) (cmd : HciCommandModel) :
    HciAdapterState × List HciAction :=
  if st.isStopped then (st, [])
  else ({ st with pendingCommand := some { cmd with ignoreResponse := false } },
    [.transportWrite cmd.opcode])

/-- `sendCommand` (part_001 lines 460-470): unless stopped, queue the
command when one is pending, else send it immediately. -/
def sendCommand (st : HciAdapterState) (cmd : HciCommandModel) :
    HciAdapterState × List HciAction :=
  if st.isStopped then (st, [])
  else
    match st.pendingCommand with
    | some _ => ({ st with commandQueue := st.commandQueue ++ [cmd] }, [])
    | none => reallySendCommand st cmd

/-- The CMD_COMPLETE / CMD_STATUS branch of `onData` (part_001 lines
1481-1497): when the event's opcode matches the pending command, clear
the pending slot, dispatch the next queued command via
`reallySendCommand` (transport write), and only then invoke the
completed command's callback -- unless it was marked ignoreResponse. -/
def onCommandCompleteEvent (st : HciAdapterState) (opcode status : Nat) :
    HciAdapterState × List HciAction :=
  match st.pendingCommand with
  | none => (st, [])
  | some pc =>
    if pc.opcode ≠ opcode then (st, [])
    else
      let st1 : HciAdapterState := { st with pendingCommand := none }
      let step :=
        match st1.commandQueue with
        | [] => (st1, [])
        | cmd :: rest => reallySendCommand { st1 with commandQueue := rest } cmd
      (step.1, step.2 ++ (if pc.ignoreResponse then [] else [.invokeCallback pc.cbId status]))

/-- C10: on a Command Complete / Command Status event matching the
pending command, the adapter (running, pending not marked
ignoreResponse) first clears the pending slot and hands the next queued
command to the transport -- the transport write is the first action and
the new pending slot holds that command, with the queue advanced --
and only afterwards invokes the completed command's callback (the last
action); a command issued from inside that callback therefore finds the
pending slot occupied and is appended behind the already-queued
commands.  When the pending command was marked ignoreResponse, no
callback action is emitted at all. -/
theorem hciCommandComplete_order (st : HciAdapterState) (pc cmd : HciCommandModel)
    (rest : List HciCommandModel) (status : Nat)
    (hrun : st.isStopped = false)
    (hpend : st.pendingCommand = some pc)
    (hqueue : st.commandQueue = cmd :: rest) :
    (pc.ignoreResponse = false →
      onCommandCompleteEvent st pc.opcode status
        = ({ isStopped := false,
             pendingCommand := some { cmd with ignoreResponse := false },
             commandQueue := rest },
           [.transportWrite cmd.opcode, .invokeCallback pc.cbId status])) ∧
    (pc.ignoreResponse = true →
      onCommandCompleteEvent st pc.opcode status
        = ({ isStopped := false,
             pendingCommand := some { cmd with ignoreResponse := false },
             commandQueue := rest },
           [.transportWrite cmd.opcode]) ∧
      ∀ c s, HciAction.invokeCallback c s ∉ (onCommandCompleteEvent st pc.opcode status).2) ∧
    (∀ newCmd, sendCommand (onCommandCompleteEvent st pc.opcode status).1 newCmd
        = ({ isStopped := false,
             pendingCommand := some { cmd with ignoreResponse := false },
             commandQueue := rest ++ [newCmd] }, [])) := by
  obtain ⟨s0, p0, q0⟩ := st
  simp only at hrun hpend hqueue
  subst hrun hpend hqueue
  refine ⟨?_, ?_, ?_⟩
  · intro hig
    simp [onCommandCompleteEvent, reallySendCommand, hig]
  · intro hig
    constructor
    · simp [onCommandCompleteEvent, reallySendCommand, hig]
    · intro c s
      simp [onCommandCompleteEvent, reallySendCommand, hig]
  · intro newCmd
    by_cases hig : pc.ignoreResponse <;>
      simp [onCommandCompleteEvent, reallySendCommand, sendCommand, hig]

/-- Witness for C10: a concrete running adapter with a matching pending
command and one queued command; the event writes the queued command to
the transport before invoking the callback, and with ignoreResponse set
the callback is absent. -/
theorem hciCommandComplete_order_witness :
    onCommandCompleteEvent ⟨false, some ⟨0x200C, 1, false⟩, [⟨0x2005, 2, false⟩]⟩ 0x200C 0
      = (⟨false, some ⟨0x2005, 2, false⟩, []⟩,
         [.transportWrite 0x2005, .invokeCallback 1 0]) ∧
    onCommandCompleteEvent ⟨false, some ⟨0x200C, 1, true⟩, [⟨0x2005, 2, false⟩]⟩ 0x200C 0
      = (⟨false, some ⟨0x2005, 2, false⟩, []⟩, [.transportWrite 0x2005]) := by
  constructor
  · exact (hciCommandComplete_order ⟨false, some ⟨0x200C, 1, false⟩, [⟨0x2005, 2, false⟩]⟩
      ⟨0x200C, 1, false⟩ ⟨0x2005, 2, false⟩ [] 0 rfl rfl rfl).1 rfl
  · exact ((hciCommandComplete_order ⟨false, some ⟨0x200C, 1, true⟩, [⟨0x2005, 2, false⟩]⟩
      ⟨0x200C, 1, true⟩ ⟨0x2005, 2, false⟩ [] 0 rfl rfl rfl).2.1 rfl).1

end NodeBleHost
